import Mathlib

/-!
# Verification of the `ruetian-common` domain model

A shallow embedding of `src/lib.rs` of the `ruetian-common` Rust crate:
validated roll numbers, routine frequency decisions, day cycling, notice
scopes, and holiday spans, together with proofs of the specified
properties.

Machine integers (`u32`, `u8`) are modelled as `Nat`; every arithmetic
operation performed by the code (`/`, `%`, comparisons) stays far below
`2^32` on the inputs the properties quantify over, so no wraparound can
occur and plain `Nat` arithmetic is faithful.

Fallible Rust functions returning `errors::Result<T>` are modelled as
`Except ErrorKind T`; a `panic!` is modelled as `Option.none`.
-/

namespace Ruetian

/-- The `error_chain`-generated error of the crate: either the foreign
`ParseIntError` link (`NumParse`) or a plain message (`Msg`). -/
inductive ErrorKind where
  | numParse : ErrorKind
  | msg : String → ErrorKind
deriving DecidableEq, Repr

/-- `Department` enum, `repr(u32)` with explicit discriminants
(`CE = 0` … `MSE = 13`, `Chem = 100` … `Hum = 103`). -/
inductive Department where
  | CE | EEE | ME | CSE | ETE | IPE | GCE | URP | MTE | Arch | ECE | CFPE | BECM | MSE
  | Chem | Math | Phy | Hum
deriving DecidableEq, Repr

/-- The `repr(u32)` integer tag of each department. -/
def Department.tag : Department → Nat
  | .CE => 0 | .EEE => 1 | .ME => 2 | .CSE => 3 | .ETE => 4 | .IPE => 5
  | .GCE => 6 | .URP => 7 | .MTE => 8 | .Arch => 9 | .ECE => 10 | .CFPE => 11
  | .BECM => 12 | .MSE => 13
  | .Chem => 100 | .Math => 101 | .Phy => 102 | .Hum => 103

/-- `Department::try_from(u32)` derived by `TryFromPrimitive`: the inverse
of the tag assignment, failing on unknown tags. -/
def Department.try_from (n : Nat) : Option Department :=
  match n with
  | 0 => some .CE | 1 => some .EEE | 2 => some .ME | 3 => some .CSE
  | 4 => some .ETE | 5 => some .IPE | 6 => some .GCE | 7 => some .URP
  | 8 => some .MTE | 9 => some .Arch | 10 => some .ECE | 11 => some .CFPE
  | 12 => some .BECM | 13 => some .MSE
  | 100 => some .Chem | 101 => some .Math | 102 => some .Phy | 103 => some .Hum
  | _ => none

/-- The `derive_more::Display` form of a `Department`: the identifier
spelling of the variant. -/
def Department.display : Department → String
  | .CE => "CE" | .EEE => "EEE" | .ME => "ME" | .CSE => "CSE" | .ETE => "ETE"
  | .IPE => "IPE" | .GCE => "GCE" | .URP => "URP" | .MTE => "MTE"
  | .Arch => "Arch" | .ECE => "ECE" | .CFPE => "CFPE" | .BECM => "BECM"
  | .MSE => "MSE"
  | .Chem => "Chem" | .Math => "Math" | .Phy => "Phy" | .Hum => "Hum"

/-- `Department::get_course_name(self, code)`: official and colloquial
course names. The only populated entry is EEE's `"EEE 2100"`; all other
pairs yield an error message built by `format!`. -/
def Department.get_course_name (self : Department) (code : String) :
    Except ErrorKind (String × String) :=
  match self with
  | .EEE =>
      if code = "EEE 2100" then
        .ok ("Electrical Shop Practice", "Electrical Shop")
      else
        .error (.msg ("No course '" ++ code ++ "' available for " ++ self.display))
  | _ => .error (.msg ("No course available for " ++ self.display))

/-- `Section` enum {A, B, C}. -/
inductive Section where
  | A | B | C
deriving DecidableEq, Repr

/-- `Thirty(pub u8)` newtype. -/
structure Thirty where
  val : Nat
deriving DecidableEq, Repr

/- `Roll(u32)` is an opaque wrapper around the raw integer; the embedding
works with the raw value directly, with `Roll.new` as the validating
constructor. -/
namespace Roll

/-- `Roll::new(roll: u32)`: accepts the value iff it is below `10_000_000`,
its department digits are a known tag, and its last three digits are at
most 180; otherwise errors with `format!("Invalid roll: {}", roll)`. -/
def new (roll : Nat) : Except ErrorKind Nat :=
  if roll < 10000000 ∧ (Department.try_from ((roll / 1000) % 100)).isSome ∧
      roll % 1000 ≤ 180 then
    .ok roll
  else
    .error (.msg ("Invalid roll: " ++ toString roll))

/-- `Roll::department`: `Department::try_from((self.0 / 1000) % 100).unwrap()`.
The `unwrap` panic is modelled as `none`. -/
def department (roll : Nat) : Option Department :=
  Department.try_from ((roll / 1000) % 100)

/-- `Roll::series`: `self.0 / 100_000`. -/
def series (roll : Nat) : Nat :=
  roll / 100000

/-- `Roll::roll_in_dept`: `self.0 % 1000`. -/
def roll_in_dept (roll : Nat) : Nat :=
  roll % 1000

/-- `Roll::section`: match on `roll_in_dept` with range patterns
`1..=60 => A`, `61..=120 => B`, `121..=180 => C`; any other value panics
(modelled as `none`). -/
def «section» (roll : Nat) : Option Section :=
  let r := roll_in_dept roll
  if 1 ≤ r ∧ r ≤ 60 then some .A
  else if 61 ≤ r ∧ r ≤ 120 then some .B
  else if 121 ≤ r ∧ r ≤ 180 then some .C
  else none

/-- `Roll::thirty`: match on `roll_in_dept` with range patterns
`1..=30 | 61..=90 | 121..=150 => Thirty(1)`,
`31..=60 | 91..=120 | 151..=180 => Thirty(2)`; any other value panics
(modelled as `none`). -/
def thirty (roll : Nat) : Option Thirty :=
  let r := roll_in_dept roll
  if (1 ≤ r ∧ r ≤ 30) ∨ (61 ≤ r ∧ r ≤ 90) ∨ (121 ≤ r ∧ r ≤ 150) then
    some ⟨1⟩
  else if (31 ≤ r ∧ r ≤ 60) ∨ (91 ≤ r ∧ r ≤ 120) ∨ (151 ≤ r ∧ r ≤ 180) then
    some ⟨2⟩
  else none

/-- The construction invariants as the specification states them (§3):
value below `10_000_000`, known department tag, and roll-in-department in
the inclusive range `[1, 180]`. (The implemented `Roll::new` omits the
lower bound `1 ≤ value % 1000`.) -/
def spec_valid (roll : Nat) : Prop :=
  roll < 10000000 ∧ (Department.try_from ((roll / 1000) % 100)).isSome ∧
    1 ≤ roll % 1000 ∧ roll % 1000 ≤ 180

instance (roll : Nat) : Decidable (spec_valid roll) := by
  unfold spec_valid; infer_instance

end Roll

/-- `u32::from_str` (decimal): optional leading `'+'`, then one or more
ASCII digits, value required to fit in `u32`; every failure (empty input,
non-digit, overflow) is a `ParseIntError`, modelled as `none`. -/
def parse_u32 (s : String) : Option Nat :=
  let ds := match s.data with
    | '+' :: rest => rest
    | cs => cs
  if ds = [] then none
  else if ds.all (fun c => c.isDigit) then
    let n := ds.foldl (fun acc c => acc * 10 + (c.toNat - 48)) 0
    if n < 4294967296 then some n else none
  else none

/-- `impl FromStr for Roll`: parse the string as `u32` (failure becomes the
`NumParse` error kind via the `?` foreign link), then delegate to
`Roll::new`. -/
def Roll.from_str (s : String) : Except ErrorKind Nat :=
  match parse_u32 s with
  | none => .error .numParse
  | some n => Roll.new n

/-- `Day` enum {A, B, C, D, E}. -/
inductive Day where
  | A | B | C | D | E
deriving DecidableEq, Repr

/-- `Day::succ`: the next day in the cyclic order A→B→C→D→E→A. -/
def Day.succ : Day → Day
  | .A => .B
  | .B => .C
  | .C => .D
  | .D => .E
  | .E => .A

/-- `ClassFrequency` enum: how frequently a routine entry's class gathers. -/
inductive ClassFrequency where
  | everyCycleWithAll : ClassFrequency
  | everyCycleWith : Thirty → ClassFrequency
  | oddCyclesWithAll : ClassFrequency
  | evenCyclesWithAll : ClassFrequency
  | oddCyclesWith : Thirty → ClassFrequency
deriving DecidableEq, Repr

/-- `impl Default for ClassFrequency`. -/
def ClassFrequency.deflt : ClassFrequency := .everyCycleWithAll

/-- `ClassInRoutine` struct: a scheduled class of the weekly routine. -/
structure ClassInRoutine where
  course : String
  teacher : String
  period : Nat
  class_room : String
  contact_hours : Nat
  frequency : ClassFrequency
  comment : String
deriving DecidableEq, Repr

/-- `ClassInRoutine::default_contact_hour`. -/
def ClassInRoutine.default_contact_hour : Nat := 1

/-- `ClassInRoutine::would_sit_for(&self, roll, cycle)`: the guarded match
on `self.frequency`. A guard that calls `roll.thirty()` can panic
(modelled as `none`); the `OddCyclesWith` guard short-circuits on
`cycle % 2 != 0` before calling `roll.thirty()`, and any failed guard
falls through to the final `_ => false` arm. -/
def ClassInRoutine.would_sit_for (self : ClassInRoutine) (roll : Nat)
    (cycle : Nat) : Option Bool :=
  match self.frequency with
  | .everyCycleWithAll => some true
  | .everyCycleWith t => (Roll.thirty roll).map (fun rt => t = rt)
  | .oddCyclesWithAll => some (decide (cycle % 2 ≠ 0))
  | .evenCyclesWithAll => some (decide (cycle % 2 = 0))
  | .oddCyclesWith t =>
      if cycle % 2 ≠ 0 then (Roll.thirty roll).map (fun rt => t = rt)
      else some false

/-- The truth table of §4.2 of the specification, written over the roll's
thirty: `EveryCycleWithAll` always; `EveryCycleWith t` iff the thirty is
`t`; `OddCyclesWithAll` iff the cycle is odd; `EvenCyclesWithAll` iff the
cycle is even; `OddCyclesWith t` iff the cycle is odd and the thirty is
`t`. -/
def sit_table (f : ClassFrequency) (t : Thirty) (cycle : Nat) : Bool :=
  match f with
  | .everyCycleWithAll => true
  | .everyCycleWith t2 => t2 = t
  | .oddCyclesWithAll => cycle % 2 ≠ 0
  | .evenCyclesWithAll => cycle % 2 = 0
  | .oddCyclesWith t2 => decide (cycle % 2 ≠ 0) && decide (t2 = t)

/-- `WhoScope` struct: the people scope of a class-off notice. -/
structure WhoScope where
  «section» : Option Section
  thirty : Thirty
deriving DecidableEq, Repr

/-- `#[derive(Default)]` for `WhoScope`: `None` section, `Thirty(0)`. -/
def WhoScope.deflt : WhoScope := ⟨none, ⟨0⟩⟩

/-- `WhoScope::is_default`: `self.section == None && self.thirty == Thirty(0)`. -/
def WhoScope.is_default (self : WhoScope) : Bool :=
  self.«section» = none ∧ self.thirty = ⟨0⟩

/-- `chrono::NaiveDate`, modelled by its day number on the proleptic
calendar line: a totally ordered value whose `Ord` instance is
chronological order, which is all `HolidaySpan` consumes. -/
structure NaiveDate where
  days : Int
deriving DecidableEq, Repr

instance : LE NaiveDate := ⟨fun a b => a.days ≤ b.days⟩

instance : LT NaiveDate := ⟨fun a b => a.days < b.days⟩

instance (a b : NaiveDate) : Decidable (a ≤ b) :=
  inferInstanceAs (Decidable (a.days ≤ b.days))

instance (a b : NaiveDate) : Decidable (a < b) :=
  inferInstanceAs (Decidable (a.days < b.days))

/-- `HolidaySpan` enum: a single day `{ on }` or an inclusive range
`{ from, to }`. No constructor or deserializer relates `from` and `to`. -/
inductive HolidaySpan where
  | singleDay : NaiveDate → HolidaySpan
  | multiDays : NaiveDate → NaiveDate → HolidaySpan
deriving DecidableEq, Repr

/-- `HolidaySpan::start`. -/
def HolidaySpan.start : HolidaySpan → NaiveDate
  | .singleDay onDate => onDate
  | .multiDays fromDate _ => fromDate

/-- `HolidaySpan::end`. -/
def HolidaySpan.«end» : HolidaySpan → NaiveDate
  | .singleDay onDate => onDate
  | .multiDays _ toDate => toDate

/-- `HolidaySpan::contains(self, needle)`: equality for a single day,
`needle >= from && needle <= to` for a range. -/
def HolidaySpan.contains (self : HolidaySpan) (needle : NaiveDate) : Bool :=
  match self with
  | .singleDay onDate => needle = onDate
  | .multiDays fromDate toDate =>
      decide (fromDate ≤ needle) && decide (needle ≤ toDate)

/-! ## Helper lemmas -/

/-- The order on modelled dates is the order of the underlying day numbers. -/
theorem NaiveDate.le_def (a b : NaiveDate) : a ≤ b ↔ a.days ≤ b.days :=
  Iff.rfl

/-- The strict order on modelled dates is the strict order of the
underlying day numbers. -/
theorem NaiveDate.lt_def (a b : NaiveDate) : a < b ↔ a.days < b.days :=
  Iff.rfl

/-- `Roll::new` never produces the `NumParse` error kind: its only error is
the `Msg` kind. -/
theorem Roll.new_ne_numParse (n : Nat) :
    Roll.new n ≠ .error .numParse := by
  unfold Roll.new
  split
  · exact fun h => Except.noConfusion h
  · intro h
    exact ErrorKind.noConfusion (Except.error.inj h)

/-- On a roll satisfying the specification's construction invariants,
`Roll::thirty` reaches one of its two value arms. -/
theorem Roll.thirty_isSome_of_spec_valid (v : Nat) (h : Roll.spec_valid v) :
    ∃ t, Roll.thirty v = some t := by
  obtain ⟨-, -, h1, h2⟩ := h
  simp only [Roll.thirty, Roll.roll_in_dept]
  split
  · exact ⟨⟨1⟩, rfl⟩
  · split
    · exact ⟨⟨2⟩, rfl⟩
    · omega

/-! ## The claims -/

/-- Claim C1. The specification requires `Roll::new(v)` (for `v` below
`10_000_000`) to succeed iff the department tag is known AND
`v mod 1000 ∈ [1, 180]`; the implementation omits the lower bound, so it
accepts `1000` even though `1000 mod 1000 = 0` is outside `[1, 180]`. -/
theorem roll_new_missing_lower_bound :
    Roll.new 1000 = .ok 1000 ∧ (1000 : Nat) % 1000 = 0 ∧
      ¬ Roll.spec_valid 1000 := by
  refine ⟨?_, by decide, by decide⟩
  rfl

/-- Claim C2. The derivation methods are not total on the output of the
implemented `Roll::new`: the value `1000` is accepted by `Roll::new`, yet
`Roll::section` and `Roll::thirty` both hit their panic arm on it
(`roll_in_dept = 0` matches no range pattern). -/
theorem roll_derivations_panic_on_constructed :
    Roll.new 1000 = .ok 1000 ∧ Roll.«section» 1000 = none ∧
      Roll.thirty 1000 = none ∧ Roll.department 1000 = some .EEE := by
  refine ⟨rfl, ?_, ?_, rfl⟩ <;> decide

/-- Claim C5. `Day::succ` is a cyclic permutation of order five: five
successive applications return the starting day. -/
theorem day_succ_order_five :
    ∀ d : Day, d.succ.succ.succ.succ.succ = d := by
  intro d
  cases d <;> rfl

/-- Claim C8. `WhoScope::is_default` holds exactly when the section is
absent and the thirty is `Thirty(0)`, and it holds for the
`Default`-constructed scope. -/
theorem who_scope_is_default_iff :
    (∀ w : WhoScope,
      w.is_default = true ↔ (w.«section» = none ∧ w.thirty = ⟨0⟩)) ∧
      WhoScope.deflt.is_default = true := by
  constructor
  · intro w
    simp [WhoScope.is_default]
  · decide

/-- Claim C4. For every `HolidaySpan` (with no precondition relating
`from` and `to`) and every date, `contains` holds exactly when the date
lies between `start` and `end` inclusively. -/
theorem holiday_span_contains_iff :
    ∀ (h : HolidaySpan) (d : NaiveDate),
      h.contains d = true ↔ (h.start ≤ d ∧ d ≤ h.«end») := by
  intro h d
  cases h with
  | singleDay onDate =>
      simp only [HolidaySpan.contains, HolidaySpan.start, HolidaySpan.«end»,
        decide_eq_true_eq, NaiveDate.le_def]
      constructor
      · rintro rfl
        exact ⟨le_refl _, le_refl _⟩
      · rintro ⟨h1, h2⟩
        cases d
        cases onDate
        simp only [NaiveDate.mk.injEq]
        simp only at h1 h2
        omega
  | multiDays fromDate toDate =>
      simp only [HolidaySpan.contains, HolidaySpan.start, HolidaySpan.«end»,
        Bool.and_eq_true, decide_eq_true_eq]

/-- Claim C10. A `MultiDays` span whose `from` is after its `to` is empty:
`contains` rejects every date, in particular its own `start` and `end`. -/
theorem multi_days_inverted_is_empty (fromDate toDate d : NaiveDate)
    (h : toDate < fromDate) :
    (HolidaySpan.multiDays fromDate toDate).contains d = false ∧
      (HolidaySpan.multiDays fromDate toDate).contains
        (HolidaySpan.multiDays fromDate toDate).start = false ∧
      (HolidaySpan.multiDays fromDate toDate).contains
        (HolidaySpan.multiDays fromDate toDate).«end» = false := by
  cases fromDate with
  | mk fd =>
  cases toDate with
  | mk td =>
  cases d with
  | mk dd =>
  simp only [HolidaySpan.contains, HolidaySpan.start, HolidaySpan.«end»,
    Bool.and_eq_false_iff, decide_eq_false_iff_not, NaiveDate.le_def] at *
  simp only [NaiveDate.lt_def] at h
  refine ⟨?_, ?_, ?_⟩ <;> omega

/-- Witness for C10 at the concrete inverted span `from = day 1`,
`to = day 0`, probe date `day 0`. -/
theorem multi_days_inverted_is_empty_witness :
    (HolidaySpan.multiDays ⟨1⟩ ⟨0⟩).contains ⟨0⟩ = false ∧
      (HolidaySpan.multiDays ⟨1⟩ ⟨0⟩).contains
        (HolidaySpan.multiDays ⟨1⟩ ⟨0⟩).start = false ∧
      (HolidaySpan.multiDays ⟨1⟩ ⟨0⟩).contains
        (HolidaySpan.multiDays ⟨1⟩ ⟨0⟩).«end» = false :=
  multi_days_inverted_is_empty ⟨1⟩ ⟨0⟩ ⟨0⟩ (by decide)

/-- Claim C6, counterexample. The claim that every miss yields an error
carrying both the department and the code is false: for a department other
than EEE the error message mentions only the department, so two distinct
codes produce the very same error value. -/
theorem get_course_name_drops_code :
    Department.get_course_name .CE "EEE 2100" =
        Department.get_course_name .CE "ME 1102" ∧
      Department.get_course_name .CE "EEE 2100" =
        .error (.msg "No course available for CE") ∧
      ("EEE 2100" : String) ≠ "ME 1102" := by
  refine ⟨rfl, rfl, ?_⟩
  decide

/-- Claim C6, amended. `get_course_name` succeeds exactly on
(`EEE`, `"EEE 2100"`); for EEE with any other code the error carries both
the code and the department, while for every other department the error
carries only the department's display name, independent of the code. -/
theorem get_course_name_characterization :
    ∀ (d : Department) (code : String),
      Department.get_course_name d code =
        if d = .EEE then
          if code = "EEE 2100" then
            .ok ("Electrical Shop Practice", "Electrical Shop")
          else
            .error (.msg ("No course '" ++ code ++ "' available for " ++ "EEE"))
        else
          .error (.msg ("No course available for " ++ d.display)) := by
  intro d code
  cases d <;> rfl

/-- Claim C7. `Roll` string parsing fails with the `NumParse` error kind
exactly when the string does not parse as a `u32`, and otherwise returns
precisely `Roll::new` of the parsed integer. -/
theorem roll_from_str_spec :
    ∀ s : String,
      (Roll.from_str s = .error .numParse ↔ parse_u32 s = none) ∧
        (∀ n, parse_u32 s = some n → Roll.from_str s = Roll.new n) := by
  intro s
  unfold Roll.from_str
  cases h : parse_u32 s with
  | none =>
      refine ⟨by simp, ?_⟩
      intro n hn
      exact absurd hn (by simp)
  | some n =>
      refine ⟨?_, ?_⟩
      · constructor
        · intro hbad
          exact absurd hbad (Roll.new_ne_numParse n)
        · intro hbad
          exact Option.noConfusion hbad
      · rintro m hm
        cases hm
        rfl

/-- Witness for C7 at the concrete string `"1001"`, which parses to the
integer `1001`. -/
theorem roll_from_str_spec_witness :
    parse_u32 "1001" = some 1001 ∧ Roll.from_str "1001" = Roll.new 1001 :=
  ⟨by decide, (roll_from_str_spec "1001").2 1001 (by decide)⟩

/-- Claim C3. On a roll satisfying the construction invariants and any
cycle in `[0, 255]`, `would_sit_for` returns (without panicking) exactly
the value of the §4.2 truth table applied to the roll's thirty: always for
`EveryCycleWithAll`; thirty match for `EveryCycleWith`; odd cycle for
`OddCyclesWithAll`; even cycle (including cycle 0) for
`EvenCyclesWithAll`; and odd cycle AND thirty match for `OddCyclesWith`,
hence false on every even cycle regardless of sub-group. -/
theorem would_sit_for_matches_table (c : ClassInRoutine) (v cycle : Nat)
    (hv : Roll.spec_valid v) (_hc : cycle ≤ 255) :
    ∃ t, Roll.thirty v = some t ∧
      c.would_sit_for v cycle = some (sit_table c.frequency t cycle) := by
  obtain ⟨t, ht⟩ := Roll.thirty_isSome_of_spec_valid v hv
  refine ⟨t, ht, ?_⟩
  unfold ClassInRoutine.would_sit_for sit_table
  cases c.frequency with
  | everyCycleWithAll => rfl
  | everyCycleWith t2 => simp [ht]
  | oddCyclesWithAll => rfl
  | evenCyclesWithAll => rfl
  | oddCyclesWith t2 =>
      by_cases hc2 : cycle % 2 = 0
      · simp [hc2]
      · simp [hc2, ht]

/-- Witness for C3: the routine entry of the crate's own test with
frequency `OddCyclesWith(Thirty(1))`, roll `1610001`, cycle `3`. -/
theorem would_sit_for_matches_table_witness :
    Roll.spec_valid 1610001 ∧ (3 : Nat) ≤ 255 ∧
      ∃ t, Roll.thirty 1610001 = some t ∧
        (ClassInRoutine.mk "EEE2104" "MFH" 1 "EEE 201" 3
            (.oddCyclesWith ⟨1⟩) "").would_sit_for 1610001 3 =
          some (sit_table (.oddCyclesWith ⟨1⟩) t 3) :=
  ⟨by decide, by decide,
    would_sit_for_matches_table
      ⟨"EEE2104", "MFH", 1, "EEE 201", 3, .oddCyclesWith ⟨1⟩, ""⟩
      1610001 3 (by decide) (by decide)⟩

/-- Claim C9. `would_sit_for` reads the roll only through its thirty: two
rolls satisfying the construction invariants with equal `thirty()` are
indistinguishable to every routine entry on every cycle. -/
theorem would_sit_for_thirty_blind (c : ClassInRoutine) (v1 v2 cycle : Nat)
    (_h1 : Roll.spec_valid v1) (_h2 : Roll.spec_valid v2)
    (ht : Roll.thirty v1 = Roll.thirty v2) :
    c.would_sit_for v1 cycle = c.would_sit_for v2 cycle := by
  unfold ClassInRoutine.would_sit_for
  cases c.frequency <;> simp [ht]

/-- Witness for C9: rolls `1610001` and `1610025` both have thirty 1, and
a `EveryCycleWith(Thirty(2))` entry treats them alike on cycle 2. -/
theorem would_sit_for_thirty_blind_witness :
    Roll.spec_valid 1610001 ∧ Roll.spec_valid 1610025 ∧
      Roll.thirty 1610001 = Roll.thirty 1610025 ∧
      (ClassInRoutine.mk "EEE2104" "MFH" 1 "EEE 201" 3
          (.everyCycleWith ⟨2⟩) "").would_sit_for 1610001 2 =
        (ClassInRoutine.mk "EEE2104" "MFH" 1 "EEE 201" 3
          (.everyCycleWith ⟨2⟩) "").would_sit_for 1610025 2 :=
  ⟨by decide, by decide, by decide,
    would_sit_for_thirty_blind
      ⟨"EEE2104", "MFH", 1, "EEE 201", 3, .everyCycleWith ⟨2⟩, ""⟩
      1610001 1610025 2 (by decide) (by decide) (by decide)⟩

end Ruetian
